import Mathlib

/-!
Shallow embedding of the voicetyping service core
(`src/voicetyping/state.py` and `src/voicetyping/main.py`),
with theorems settling the specification claims about the
processing state machine, the transcription queue, and the
recording/stop/dispatch pipeline.
-/

namespace VoiceTyping

/-! ## `state.py`: states, events, the state machine -/

/-- `ProcessingState` enum from `state.py`. -/
inductive ProcessingState where
  | IDLE
  | RECORDING
  | TRANSFORMING
  | TRANSCRIBING
deriving DecidableEq, Repr

/-- `ProcessingEvent` enum from `state.py`. -/
inductive ProcessingEvent where
  | START_RECORDING
  | TRANSFORM_START
  | TRANSFORM_STOP
  | TRANSCRIBE_START
  | TRANSCRIBE_STOP
  | STOP_RECORDING
deriving DecidableEq, Repr

/-- `TransitionError` from `state.py`.  The Python message string is
`f"Unknown transition from: {self._state} on event: {event}"`; we keep the
two operands it interpolates as structured fields. -/
structure TransitionError where
  state : ProcessingState
  event : ProcessingEvent
deriving DecidableEq, Repr

/-- One listener invocation performed by `_notify_listeners`.  Listeners are
opaque callables in the source; we identify them by a number (registration
id).  `observed` records the value the `current_state` property would return
if the callback read it during the call (the `_state` field at call time). -/
structure ListenerCall where
  listener : Nat
  old_state : ProcessingState
  new_state : ProcessingState
  observed : ProcessingState
deriving DecidableEq, Repr

/-- `ProcessingStateMachine` fields: `_state` and `_listeners`. -/
structure ProcessingStateMachine where
  state : ProcessingState
  listeners : List Nat
deriving DecidableEq, Repr

/-- Property `current_state`. -/
def ProcessingStateMachine.current_state (m : ProcessingStateMachine) : ProcessingState :=
  m.state

/-- Property `is_recording`. -/
def ProcessingStateMachine.is_recording (m : ProcessingStateMachine) : Bool :=
  m.state == ProcessingState.RECORDING

/-- `add_listener`: appends to `_listeners`. -/
def ProcessingStateMachine.add_listener (m : ProcessingStateMachine) (callback : Nat) :
    ProcessingStateMachine :=
  { m with listeners := m.listeners ++ [callback] }

/-- `_notify_listeners`: calls every registered listener, in list order,
with `(old_state, new_state)`.  Invoked on the machine whose `_state` field
has already been updated, so `observed` is that updated field. -/
def ProcessingStateMachine.notify_listeners (m : ProcessingStateMachine)
    (old_state new_state : ProcessingState) : List ListenerCall :=
  m.listeners.map (fun l =>
    { listener := l, old_state := old_state, new_state := new_state, observed := m.state })

/-- What a successful `transition` call produces: the machine after the
assignment to `_state`, the value `return self._state` yields, and the
listener invocations performed (synchronously, inside the call). -/
structure TransitionResult where
  machine : ProcessingStateMachine
  returned : ProcessingState
  calls : List ListenerCall
deriving DecidableEq, Repr

/-- `ProcessingStateMachine.transition` from `state.py`: the `match` on
`(self._state, event)` either assigns a new `_state`, leaves it unchanged
(the logged `(IDLE, STOP_RECORDING)` no-op), or raises `TransitionError`;
afterwards listeners are notified iff `old_state != self._state`, and
`self._state` is returned. -/
def ProcessingStateMachine.transition (m : ProcessingStateMachine) (event : ProcessingEvent) :
    Except TransitionError TransitionResult :=
  let old_state := m.state
  let step : Except TransitionError ProcessingState :=
    match m.state, event with
    | ProcessingState.IDLE, ProcessingEvent.START_RECORDING =>
        Except.ok ProcessingState.RECORDING
    | ProcessingState.RECORDING, ProcessingEvent.STOP_RECORDING =>
        Except.ok ProcessingState.IDLE
    | ProcessingState.IDLE, ProcessingEvent.TRANSFORM_START =>
        Except.ok ProcessingState.TRANSFORMING
    | ProcessingState.TRANSFORMING, ProcessingEvent.TRANSFORM_STOP =>
        Except.ok ProcessingState.IDLE
    | ProcessingState.IDLE, ProcessingEvent.TRANSCRIBE_START =>
        Except.ok ProcessingState.TRANSCRIBING
    | ProcessingState.TRANSCRIBING, ProcessingEvent.TRANSCRIBE_STOP =>
        Except.ok ProcessingState.IDLE
    | ProcessingState.IDLE, ProcessingEvent.STOP_RECORDING =>
        -- edge case: "Can't stop if not recording" is logged, state untouched
        Except.ok m.state
    | s, e => Except.error { state := s, event := e }
  match step with
  | Except.error err => Except.error err
  | Except.ok s2 =>
      let m2 : ProcessingStateMachine := { m with state := s2 }
      let calls :=
        if old_state ≠ m2.state then m2.notify_listeners old_state m2.state else []
      Except.ok { machine := m2, returned := m2.state, calls := calls }

/-- The transition table exactly as the specification document writes it
(section 4.1), including the `(Idle, StopRecording) -> Idle` no-op row.
This definition follows the spec words, to be compared with `transition`,
which follows the source. -/
def specTable : ProcessingState → ProcessingEvent → Option ProcessingState
  | ProcessingState.IDLE, ProcessingEvent.START_RECORDING => some ProcessingState.RECORDING
  | ProcessingState.RECORDING, ProcessingEvent.STOP_RECORDING => some ProcessingState.IDLE
  | ProcessingState.IDLE, ProcessingEvent.TRANSFORM_START => some ProcessingState.TRANSFORMING
  | ProcessingState.TRANSFORMING, ProcessingEvent.TRANSFORM_STOP => some ProcessingState.IDLE
  | ProcessingState.IDLE, ProcessingEvent.TRANSCRIBE_START => some ProcessingState.TRANSCRIBING
  | ProcessingState.TRANSCRIBING, ProcessingEvent.TRANSCRIBE_STOP => some ProcessingState.IDLE
  | ProcessingState.IDLE, ProcessingEvent.STOP_RECORDING => some ProcessingState.IDLE
  | _, _ => none

/-- C1: for every (state, event) pair in the transition table (the table
includes the `(Idle, StopRecording)` no-op), `transition` succeeds and the
machine's `current_state` afterwards equals the declared target; for every
pair not in the table it raises a `TransitionError` identifying both the
state and the event. -/
theorem transition_agrees_with_spec_table (ls : List Nat)
    (s : ProcessingState) (e : ProcessingEvent) :
    match specTable s e with
    | some t =>
        ∃ r, (ProcessingStateMachine.mk s ls).transition e = Except.ok r ∧
          r.machine.current_state = t
    | none =>
        (ProcessingStateMachine.mk s ls).transition e =
          Except.error { state := s, event := e } := by
  cases s <;> cases e <;>
    simp [specTable, ProcessingStateMachine.transition,
      ProcessingStateMachine.current_state, ProcessingStateMachine.notify_listeners]

/-- Shared shape of every successful `transition` call: the listener list is
untouched, the returned value is the machine's `_state` field after the
assignment, and the listener calls are exactly the no-change/changed
alternative of the source. -/
theorem transition_ok_shape (m : ProcessingStateMachine) (e : ProcessingEvent)
    (r : TransitionResult) (h : m.transition e = Except.ok r) :
    r.machine.listeners = m.listeners ∧
    r.returned = r.machine.state ∧
    r.calls = (if m.state = r.machine.state then []
               else r.machine.notify_listeners m.state r.machine.state) := by
  cases m with
  | mk s listeners =>
    cases s <;> cases e <;>
      simp only [ProcessingStateMachine.transition, Except.ok.injEq,
        reduceCtorEq, ne_eq, reduceIte] at h <;>
      subst h <;>
      simp [ProcessingStateMachine.notify_listeners]

/-- C8: `transition(STOP_RECORDING)` from `IDLE` performs zero listener
calls and leaves `current_state = IDLE`, whatever listeners are registered;
in general, a successful `transition` performs exactly the notification
round the source prescribes: no calls when the state did not change, and
otherwise one call per registered listener, in registration order, each
with the same `(old_state, new_state)` arguments.  (The calls are part of
the value `transition` returns, i.e. synchronous within the call.) -/
theorem notify_on_change_only (ls : List Nat) :
    ((ProcessingStateMachine.mk ProcessingState.IDLE ls).transition
        ProcessingEvent.STOP_RECORDING =
      Except.ok
        { machine := ProcessingStateMachine.mk ProcessingState.IDLE ls,
          returned := ProcessingState.IDLE, calls := [] }) ∧
    (∀ (m : ProcessingStateMachine) (e : ProcessingEvent) (r : TransitionResult),
      m.transition e = Except.ok r →
      r.calls =
        if m.current_state = r.machine.current_state then []
        else m.listeners.map (fun l =>
          { listener := l, old_state := m.current_state,
            new_state := r.machine.current_state,
            observed := r.machine.current_state })) := by
  constructor
  · simp [ProcessingStateMachine.transition]
  · intro m e r h
    obtain ⟨hls, _, hcalls⟩ := transition_ok_shape m e r h
    rw [hcalls]
    simp [ProcessingStateMachine.notify_listeners,
      ProcessingStateMachine.current_state, hls]

/-- Witness for C8 at concrete inputs: two listeners on an idle machine,
and a concrete changing transition. -/
theorem notify_on_change_only_witness :
    ((ProcessingStateMachine.mk ProcessingState.IDLE [0, 1]).transition
        ProcessingEvent.STOP_RECORDING =
      Except.ok
        { machine := ProcessingStateMachine.mk ProcessingState.IDLE [0, 1],
          returned := ProcessingState.IDLE, calls := [] }) ∧
    ([({ listener := 5, old_state := ProcessingState.IDLE,
         new_state := ProcessingState.RECORDING,
         observed := ProcessingState.RECORDING } : ListenerCall)] =
      if (ProcessingStateMachine.mk ProcessingState.IDLE [5]).current_state =
          (ProcessingStateMachine.mk ProcessingState.RECORDING [5]).current_state then []
      else [5].map (fun l =>
        { listener := l, old_state := ProcessingState.IDLE,
          new_state := ProcessingState.RECORDING,
          observed := ProcessingState.RECORDING })) := by
  refine ⟨(notify_on_change_only [0, 1]).1, ?_⟩
  have h := (notify_on_change_only []).2
    (ProcessingStateMachine.mk ProcessingState.IDLE [5])
    ProcessingEvent.START_RECORDING
    { machine := ProcessingStateMachine.mk ProcessingState.RECORDING [5],
      returned := ProcessingState.RECORDING,
      calls := [{ listener := 5, old_state := ProcessingState.IDLE,
                  new_state := ProcessingState.RECORDING,
                  observed := ProcessingState.RECORDING }] } rfl
  simpa using h.symm

/-- C10: `transition` assigns `_state` before `_notify_listeners` runs, so
every listener call observes `current_state` equal to its `new_state`
argument; and whenever `transition` returns (the table rows and the no-op
row alike), the returned value equals the machine's `current_state` right
after the call.  In the error case nothing is returned and the machine is
unchanged. -/
theorem transition_returns_current_state (m : ProcessingStateMachine)
    (e : ProcessingEvent) (r : TransitionResult)
    (h : m.transition e = Except.ok r) :
    r.returned = r.machine.current_state ∧
    ∀ c ∈ r.calls, c.observed = c.new_state := by
  obtain ⟨_, hret, hcalls⟩ := transition_ok_shape m e r h
  refine ⟨hret, ?_⟩
  intro c hc
  rw [hcalls] at hc
  by_cases hst : m.state = r.machine.state
  · simp [hst] at hc
  · simp [hst, ProcessingStateMachine.notify_listeners] at hc
    obtain ⟨l, _, rfl⟩ := hc
    rfl

/-- Witness for C10 at a concrete input: one listener, `START_RECORDING`
from `IDLE`. -/
theorem transition_returns_current_state_witness :
    (ProcessingState.RECORDING =
      (ProcessingStateMachine.mk ProcessingState.RECORDING [3]).current_state) ∧
    ∀ c ∈ [({ listener := 3, old_state := ProcessingState.IDLE,
              new_state := ProcessingState.RECORDING,
              observed := ProcessingState.RECORDING } : ListenerCall)],
      c.observed = c.new_state := by
  exact transition_returns_current_state
    (ProcessingStateMachine.mk ProcessingState.IDLE [3])
    ProcessingEvent.START_RECORDING
    { machine := ProcessingStateMachine.mk ProcessingState.RECORDING [3],
      returned := ProcessingState.RECORDING,
      calls := [{ listener := 3, old_state := ProcessingState.IDLE,
                  new_state := ProcessingState.RECORDING,
                  observed := ProcessingState.RECORDING }] } rfl

/-! ## `main.py`: `TranscriptionTask` and `TranscriptionService.process_queue` -/

/-- `InferenceProvider` enum from `const.py`. -/
inductive InferenceProvider where
  | OPENAI
  | GROQ
deriving DecidableEq, Repr

/-- The `InferenceProvider(value)` enum lookup; unknown values raise
`ValueError`. -/
def InferenceProvider.fromString : String → Except String InferenceProvider
  | "openai" => Except.ok InferenceProvider.OPENAI
  | "groq" => Except.ok InferenceProvider.GROQ
  | s => Except.error ("not a valid InferenceProvider: " ++ s)

/-- Failure of a transcription attempt, as the two `except` arms of
`process_queue` distinguish them: a `VoiceTypingError` subclass carries the
class name that `VoiceTypingError.emit` reports as the category; anything
else lands in the generic `except Exception` arm.  The `bytes.decode` step
that follows the client call can also raise, which is folded into the
client function here (it sits inside the same `try`). -/
inductive VTErr where
  | voiceTypingError (category message : String)
  | otherError (message : String)
deriving DecidableEq, Repr

/-- `TranscriptionTask` from `main.py`.  The two callbacks are arbitrary
callables acting on some ambient state `σ`, and they may raise (`ε`); the
client's `create_transcription` is a function of
`(audio_path, model, language)`.  The `transcription` attribute does not
exist until `process_queue` assigns it; it is carried as an `Option`
initialized to `none`. -/
structure TranscriptionTask (σ ε : Type) where
  audio_path : String
  language : String
  provider : InferenceProvider
  model : String
  client : String → String → String → Except VTErr String
  store_transcripts : Bool
  on_start_callback : σ → Except ε σ
  on_finish_callback : σ → Except ε σ
  transcription : Option String := none

/-- Observable steps of the queue consumer; tasks are numbered by queue
position. -/
inductive QEvent where
  | on_start_called (idx : Nat)
  | error_emitted (category message : String)
  | on_finish_called (idx : Nat)
  | yielded (idx : Nat) (transcription : Option String)
deriving DecidableEq, Repr

/-- Python `str.strip()` on the decoded text: removes leading and trailing
whitespace. -/
def pyStrip (s : String) : String :=
  String.mk
    (((s.data.dropWhile Char.isWhitespace).reverse.dropWhile
        Char.isWhitespace).reverse)

/-- The nested try/except of `process_queue` around
`client.create_transcription`: on success the decoded text is stripped and
stored; a `VoiceTypingError` is emitted (`e.emit()`) under its own
category; any other exception is reported via
`emit_error("TranscriptionService", ...)`; both failure arms set
`transcription = None`.  Returns the emitted error events and the resulting
`transcription` value. -/
def transcription_attempt {σ ε : Type} (t : TranscriptionTask σ ε) :
    List QEvent × Option String :=
  match t.client t.audio_path t.model t.language with
  | Except.ok text => ([], some (pyStrip text))
  | Except.error (VTErr.voiceTypingError cat msg) =>
      ([QEvent.error_emitted cat msg], none)
  | Except.error (VTErr.otherError msg) =>
      ([QEvent.error_emitted "TranscriptionService"
          ("Unexpected error in TranscriptionService: " ++ msg)], none)

/-- Result of running the consumer loop of
`TranscriptionService.process_queue` over a finite queue: final ambient
state, the event trace, the tasks yielded downstream (in order), and the
exception, if one escaped a callback and terminated the async generator
(the outer `except` catches only `asyncio.CancelledError`, so an exception
raised by `on_start_callback` or `on_finish_callback` propagates out). -/
structure QueueRun (σ ε : Type) where
  final : σ
  events : List QEvent
  yielded : List (TranscriptionTask σ ε)
  escaped : Option ε

/-- The `while True` consumer loop of `process_queue`, run over the tasks
currently in the queue, numbering them from `idx`.  Per task: invoke
`on_start_callback` (an exception escapes the generator); run the guarded
transcription attempt; in a `finally`, invoke `on_finish_callback` (an
exception again escapes, and the task is then never yielded); otherwise
yield the task. -/
def process_queue_from {σ ε : Type} (idx : Nat)
    (tasks : List (TranscriptionTask σ ε)) (s : σ) : QueueRun σ ε :=
  match tasks with
  | [] => { final := s, events := [], yielded := [], escaped := none }
  | t :: rest =>
    match t.on_start_callback s with
    | Except.error e =>
        { final := s, events := [QEvent.on_start_called idx],
          yielded := [], escaped := some e }
    | Except.ok s1 =>
      let att := transcription_attempt t
      let t2 := { t with transcription := att.2 }
      match t.on_finish_callback s1 with
      | Except.error e =>
          { final := s1,
            events := QEvent.on_start_called idx :: att.1 ++
              [QEvent.on_finish_called idx],
            yielded := [], escaped := some e }
      | Except.ok s2 =>
          let restRun := process_queue_from (idx + 1) rest s2
          { final := restRun.final,
            events := QEvent.on_start_called idx :: att.1 ++
              [QEvent.on_finish_called idx, QEvent.yielded idx att.2] ++
              restRun.events,
            yielded := t2 :: restRun.yielded,
            escaped := restRun.escaped }

/-- `process_queue` consuming the whole current queue, tasks numbered from
zero. -/
def process_queue {σ ε : Type} (tasks : List (TranscriptionTask σ ε)) (s : σ) :
    QueueRun σ ε :=
  process_queue_from 0 tasks s

/-- Both callbacks of a task return normally on every state. -/
def callbacks_ok {σ ε : Type} (t : TranscriptionTask σ ε) : Prop :=
  (∀ x : σ, ∃ y, t.on_start_callback x = Except.ok y) ∧
  (∀ x : σ, ∃ y, t.on_finish_callback x = Except.ok y)

/-- The trace `process_queue` produces when no callback raises: per task,
on-start, then the error events of the transcription attempt, then
on-finish, then the yield — in queue order. -/
def expected_trace {σ ε : Type} (idx : Nat) :
    List (TranscriptionTask σ ε) → List QEvent
  | [] => []
  | t :: rest =>
      QEvent.on_start_called idx :: (transcription_attempt t).1 ++
        [QEvent.on_finish_called idx,
         QEvent.yielded idx (transcription_attempt t).2] ++
        expected_trace (idx + 1) rest

/-- Helper: when no callback raises, the consumer loop runs every task to
the yield, in order, and nothing escapes. -/
theorem process_queue_from_no_escape {σ ε : Type} (idx : Nat)
    (tasks : List (TranscriptionTask σ ε)) (s : σ)
    (h : ∀ t ∈ tasks, callbacks_ok t) :
    (process_queue_from idx tasks s).events = expected_trace idx tasks ∧
    (process_queue_from idx tasks s).yielded =
      tasks.map (fun t => { t with transcription := (transcription_attempt t).2 }) ∧
    (process_queue_from idx tasks s).escaped = none := by
  induction tasks generalizing idx s with
  | nil => simp [process_queue_from, expected_trace]
  | cons t rest ih =>
    obtain ⟨hstart, hfinish⟩ := h t (by simp)
    obtain ⟨s1, hs1⟩ := hstart s
    obtain ⟨s2, hs2⟩ := hfinish s1
    have ihr := ih (idx + 1) s2 (fun u hu => h u (by simp [hu]))
    simp [process_queue_from, hs1, hs2, expected_trace, ihr.1, ihr.2.1, ihr.2.2]

/-- C2: with a client whose `create_transcription` always fails (and
callbacks that return normally), every enqueued task is still yielded
downstream exactly once with its `transcription` slot set to `none`, the
trace is exactly, per task, on-start / one error emission / on-finish /
yield (so `on_finish_callback` runs before the task is yielded, and exactly
one error is reported per failed task), and nothing escapes the loop. -/
theorem queue_always_yields_on_total_failure {σ ε : Type}
    (tasks : List (TranscriptionTask σ ε)) (s : σ)
    (hcb : ∀ t ∈ tasks, callbacks_ok t)
    (hfail : ∀ t ∈ tasks, ∀ a m l, ∃ err, t.client a m l = Except.error err) :
    (process_queue tasks s).yielded.map (fun t => t.transcription) =
      tasks.map (fun _ => none) ∧
    (process_queue tasks s).yielded.length = tasks.length ∧
    (process_queue tasks s).events = expected_trace 0 tasks ∧
    (process_queue tasks s).escaped = none ∧
    ∀ t ∈ tasks, (transcription_attempt t).1.length = 1 ∧
      (transcription_attempt t).2 = none := by
  obtain ⟨hev, hyld, hesc⟩ := process_queue_from_no_escape 0 tasks s hcb
  have hatt : ∀ t ∈ tasks, (transcription_attempt t).1.length = 1 ∧
      (transcription_attempt t).2 = none := by
    intro t ht
    obtain ⟨err, herr⟩ := hfail t ht t.audio_path t.model t.language
    cases err <;> simp [transcription_attempt, herr]
  refine ⟨?_, ?_, hev, hesc, hatt⟩
  · unfold process_queue
    rw [hyld, List.map_map]
    refine List.map_congr_left (fun t ht => ?_)
    simpa using (hatt t ht).2
  · unfold process_queue
    rw [hyld, List.length_map]

/-- Concrete failing-client task for the C2 witness: a recognized domain
error (`APIError`). -/
def demoTaskA : TranscriptionTask Nat String :=
  { audio_path := "/tmp/d1/aaa.mp3", language := "en",
    provider := InferenceProvider.OPENAI, model := "whisper-1",
    client := fun _ _ _ =>
      Except.error (VTErr.voiceTypingError "APIError" "auth failed"),
    store_transcripts := true,
    on_start_callback := fun n => Except.ok (n + 1),
    on_finish_callback := fun n => Except.ok (n + 1) }

/-- Concrete failing-client task for the C2 witness: an unrecognized
exception. -/
def demoTaskB : TranscriptionTask Nat String :=
  { demoTaskA with
    audio_path := "/tmp/d2/bbb.mp3",
    client := fun _ _ _ => Except.error (VTErr.otherError "boom") }

/-- Witness for C2 at a concrete two-task queue with always-failing
clients. -/
theorem queue_always_yields_on_total_failure_witness :
    (process_queue [demoTaskA, demoTaskB] 0).yielded.map (fun t => t.transcription) =
      [demoTaskA, demoTaskB].map (fun _ => none) ∧
    (process_queue [demoTaskA, demoTaskB] 0).yielded.length =
      [demoTaskA, demoTaskB].length ∧
    (process_queue [demoTaskA, demoTaskB] 0).events =
      expected_trace 0 [demoTaskA, demoTaskB] ∧
    (process_queue [demoTaskA, demoTaskB] 0).escaped = none ∧
    ∀ t ∈ [demoTaskA, demoTaskB], (transcription_attempt t).1.length = 1 ∧
      (transcription_attempt t).2 = none := by
  refine queue_always_yields_on_total_failure [demoTaskA, demoTaskB] 0 ?_ ?_
  · intro t ht
    simp only [List.mem_cons, List.not_mem_nil, or_false] at ht
    rcases ht with rfl | rfl <;>
      exact ⟨fun x => ⟨x + 1, rfl⟩, fun x => ⟨x + 1, rfl⟩⟩
  · intro t ht
    simp only [List.mem_cons, List.not_mem_nil, or_false] at ht
    rcases ht with rfl | rfl
    · exact fun a m l => ⟨VTErr.voiceTypingError "APIError" "auth failed", rfl⟩
    · exact fun a m l => ⟨VTErr.otherError "boom", rfl⟩

/-- Concrete task whose `on_start_callback` raises, for the C5
counterexample (the real callbacks are state-machine transitions and can
raise `TransitionError`). -/
def brokenStartTask : TranscriptionTask Nat String :=
  { audio_path := "/tmp/d3/ccc.mp3", language := "en",
    provider := InferenceProvider.OPENAI, model := "whisper-1",
    client := fun _ _ _ => Except.ok "fine",
    store_transcripts := true,
    on_start_callback := fun _ => Except.error "TransitionError from on_start",
    on_finish_callback := fun n => Except.ok n }

/-- Concrete healthy task queued behind `brokenStartTask`. -/
def healthyTask : TranscriptionTask Nat String :=
  { brokenStartTask with
    audio_path := "/tmp/d4/ddd.mp3",
    on_start_callback := fun n => Except.ok n }

/-- Counterexample to C5: when the first task's `on_start_callback` raises,
the exception is not caught (the outer `except` catches only
`CancelledError`), so the generator terminates: the failing task is never
yielded and the healthy task behind it is never processed — the loop does
not continue to the next task. -/
theorem queue_stops_on_callback_failure :
    (process_queue [brokenStartTask, healthyTask] 0).escaped =
      some "TransitionError from on_start" ∧
    (process_queue [brokenStartTask, healthyTask] 0).yielded = [] ∧
    (process_queue [brokenStartTask, healthyTask] 0).events =
      [QEvent.on_start_called 0] :=
  ⟨rfl, rfl, rfl⟩

/-- C5 as amended: the consumer loop never terminates because of a failure
of the transcription call itself — with callbacks that return normally,
every task is processed and yielded whatever the client does, and nothing
escapes; but an exception raised by a task's own on-start or on-finish
callback escapes the generator and terminates the loop (see the
counterexample). -/
theorem queue_survives_client_failures {σ ε : Type}
    (tasks : List (TranscriptionTask σ ε)) (s : σ)
    (hcb : ∀ t ∈ tasks, callbacks_ok t) :
    (process_queue tasks s).escaped = none ∧
    (process_queue tasks s).yielded.length = tasks.length := by
  obtain ⟨_, hyld, hesc⟩ := process_queue_from_no_escape 0 tasks s hcb
  refine ⟨hesc, ?_⟩
  unfold process_queue
  rw [hyld, List.length_map]

/-- Concrete tasks for the C5 witness: one client succeeds, one fails. -/
def okClientTask : TranscriptionTask Nat String :=
  { audio_path := "/tmp/d5/eee.mp3", language := "en",
    provider := InferenceProvider.GROQ, model := "whisper-large-v3",
    client := fun _ _ _ => Except.ok "  some text  ",
    store_transcripts := false,
    on_start_callback := fun n => Except.ok (n + 1),
    on_finish_callback := fun n => Except.ok (n + 1) }

/-- Concrete failing-client task for the C5 witness. -/
def badClientTask : TranscriptionTask Nat String :=
  { okClientTask with
    audio_path := "/tmp/d6/fff.mp3",
    client := fun _ _ _ => Except.error (VTErr.otherError "network down") }

/-- Witness for the amended C5 at a concrete mixed queue. -/
theorem queue_survives_client_failures_witness :
    (process_queue [okClientTask, badClientTask] 0).escaped = none ∧
    (process_queue [okClientTask, badClientTask] 0).yielded.length =
      [okClientTask, badClientTask].length := by
  refine queue_survives_client_failures [okClientTask, badClientTask] 0 ?_
  intro t ht
  simp only [List.mem_cons, List.not_mem_nil, or_false] at ht
  rcases ht with rfl | rfl <;>
    exact ⟨fun x => ⟨x + 1, rfl⟩, fun x => ⟨x + 1, rfl⟩⟩

/-! ## `main.py`: `VoiceTypingInterface` — StartRecording, StopRecording,
and the downstream dispatch of `_processing_pipeline` -/

/-- Externally observable actions of the orchestrator: DBus signals,
calls into AudioCapture / the recording handle, file-system writes and
deletions, and the keyboard-client `emit`. -/
inductive Effect where
  | recording_state_changed
  | error_occurred (category message : String)
  | create_recording_called (device : String)
  | recording_stop_called (handle : Nat)
  | save_called (handle : Nat) (filename : String)
  | cleanup_called (handle : Nat)
  | write_file (path content : String)
  | keyboard_emit (text : String)
  | unlink_file (path : String)
  | rmdir_called (dir : String)
deriving DecidableEq, Repr

/-- External collaborators of the orchestrator (AudioCapture recorder and
handle, hashlib, the clock, the provider client behind
`client.create_transcription`), modeled as injected functions.  Recording
handles are numbered. -/
structure Env where
  create_recording : String → Except String Nat
  recording_stop : Nat → Except String Unit
  fingerprint : Nat → String
  save : Nat → String → Except String String
  client_behavior : InferenceProvider → String → String → String → Except VTErr String
  md5hex : String → String
  now_str : String

/-- `VoiceTypingInterface._on_state_change` emits the parameterless
`RecordingStateChanged` DBus signal on every listener invocation, so
running a transition on the interface's machine appends one signal per
listener call performed. -/
def fireTransition (sm : ProcessingStateMachine) (e : ProcessingEvent) :
    Except TransitionError (ProcessingStateMachine × List Effect) :=
  match sm.transition e with
  | Except.ok r =>
      Except.ok (r.machine, r.calls.map (fun _ => Effect.recording_state_changed))
  | Except.error err => Except.error err

/-- Ambient state the enqueued task callbacks act on: the interface's
state machine (the lambdas close over `self._state`) together with the
signals emitted so far through its listener. -/
structure PipeState where
  sm : ProcessingStateMachine
  signals : List Effect

/-- The `lambda: self._state.transition(event)` callbacks that
`StopRecording` builds into the task: run the transition on the shared
machine, let a `TransitionError` propagate. -/
def transition_callback (e : ProcessingEvent) (p : PipeState) :
    Except TransitionError PipeState :=
  match fireTransition p.sm e with
  | Except.ok (sm2, effs) => Except.ok { sm := sm2, signals := p.signals ++ effs }
  | Except.error err => Except.error err

/-- The message string `TransitionError` interpolates
(`f"Unknown transition from: {state} on event: {event}"`). -/
def TransitionError.message (e : TransitionError) : String :=
  "Unknown transition from: " ++ reprStr e.state ++ " on event: " ++ reprStr e.event

/-- `transcription_model_from_provider` from `openai_client.py`: the model
string must belong to the provider's closed model enum, else `ValueError`. -/
def transcription_model_from_provider (provider : InferenceProvider)
    (model_str : String) : Except String String :=
  match provider with
  | InferenceProvider.OPENAI =>
      if ["whisper-1", "gpt-4o-transcribe", "gpt-4o-mini-transcribe"].contains model_str
      then Except.ok model_str
      else Except.error ("not a valid OpenAITranscriptionModel: " ++ model_str)
  | InferenceProvider.GROQ =>
      if ["whisper-large-v3-turbo", "distil-whisper-large-v3-en",
          "whisper-large-v3"].contains model_str
      then Except.ok model_str
      else Except.error ("not a valid GroqTranscriptionModel: " ++ model_str)

/-- `TranscriptionClients.get` from `transcription_client.py`: raises
`ValueError` on an empty api key, otherwise returns the (cached) provider
client — whose behavior lives in `Env.client_behavior`. -/
def clients_get (provider : InferenceProvider) (api_key : String) :
    Except String InferenceProvider :=
  if api_key = "" then Except.error "API key not found for provider"
  else Except.ok provider

/-- The state of a `VoiceTypingInterface` object: the state machine (with
`_on_state_change` registered as listener 0), the optional current
`_recording` handle, the stored output directory and persist flag, and the
`TranscriptionService` queue contents. -/
structure VoiceTypingInterface where
  sm : ProcessingStateMachine
  recording : Option Nat
  transcript_path : String
  store_transcripts : Bool
  queue : List (TranscriptionTask PipeState TransitionError)

/-- A freshly constructed interface: machine `IDLE`, one registered
listener (`_on_state_change`), nothing recorded, empty queue. -/
def initialInterface : VoiceTypingInterface :=
  { sm := { state := ProcessingState.IDLE, listeners := [0] },
    recording := none, transcript_path := "", store_transcripts := false,
    queue := [] }

/-- `VoiceTypingInterface.StartRecording`: guard on `is_recording`, store
the directory and persist flag, request a handle (the assignment to
`_recording` happens only if `create_recording` returns), fire
`START_RECORDING`; any exception inside the `try` yields
`"recording_failed"` with no cleanup. -/
def StartRecording (env : Env) (iface : VoiceTypingInterface)
    (device_name transcript_path : String) (store_transcripts : Bool) :
    VoiceTypingInterface × String × List Effect :=
  if iface.sm.is_recording then (iface, "already_recording", [])
  else
    let iface1 := { iface with
      transcript_path := transcript_path,
      store_transcripts := store_transcripts }
    match env.create_recording device_name with
    | Except.error _ =>
        (iface1, "recording_failed", [Effect.create_recording_called device_name])
    | Except.ok hnd =>
      let iface2 := { iface1 with recording := some hnd }
      match fireTransition iface2.sm ProcessingEvent.START_RECORDING with
      | Except.ok (sm2, effs) =>
          ({ iface2 with sm := sm2 }, "recording_started",
            Effect.create_recording_called device_name :: effs)
      | Except.error _ =>
          (iface2, "recording_failed", [Effect.create_recording_called device_name])

/-- The task object `StopRecording` enqueues: its client is the resolved
provider client, its callbacks drive `TRANSCRIBE_START` / `TRANSCRIBE_STOP`
on the shared state machine. -/
def mkTranscriptionTask (env : Env) (audio_path language : String)
    (provider : InferenceProvider) (model : String) (store_transcripts : Bool) :
    TranscriptionTask PipeState TransitionError :=
  { audio_path := audio_path, language := language, provider := provider,
    model := model,
    client := env.client_behavior provider,
    store_transcripts := store_transcripts,
    on_start_callback := transition_callback ProcessingEvent.TRANSCRIBE_START,
    on_finish_callback := transition_callback ProcessingEvent.TRANSCRIBE_STOP }

/-- The `try` body of `StopRecording`: stop the handle, fire
`STOP_RECORDING`, fire `TRANSFORM_START`, build the content-addressed
path `transcript_path/now/fingerprint`, save, resolve provider / model /
client, fire `TRANSFORM_STOP`, and produce the task to enqueue.  On an
exception the machine state reached, the effects so far and the message
are carried to the `except` arm. -/
def stop_recording_try (env : Env) (iface : VoiceTypingInterface) (hnd : Nat)
    (language provider model api_key : String) :
    Except (ProcessingStateMachine × List Effect × String)
      (ProcessingStateMachine × List Effect ×
        TranscriptionTask PipeState TransitionError) :=
  let effs0 := [Effect.recording_stop_called hnd]
  match env.recording_stop hnd with
  | Except.error msg => Except.error (iface.sm, effs0, msg)
  | Except.ok _ =>
    match fireTransition iface.sm ProcessingEvent.STOP_RECORDING with
    | Except.error err => Except.error (iface.sm, effs0, err.message)
    | Except.ok (sm1, effs1) =>
      match fireTransition sm1 ProcessingEvent.TRANSFORM_START with
      | Except.error err => Except.error (sm1, effs0 ++ effs1, err.message)
      | Except.ok (sm2, effs2) =>
        let md5_hash := env.fingerprint hnd
        let filename := iface.transcript_path ++ "/" ++ env.now_str ++ "/" ++ md5_hash
        let effsA := effs0 ++ effs1 ++ effs2 ++ [Effect.save_called hnd filename]
        match env.save hnd filename with
        | Except.error msg => Except.error (sm2, effsA, msg)
        | Except.ok audio_path =>
          match InferenceProvider.fromString provider with
          | Except.error msg => Except.error (sm2, effsA, msg)
          | Except.ok prov =>
            match transcription_model_from_provider prov model with
            | Except.error msg => Except.error (sm2, effsA, msg)
            | Except.ok model2 =>
              match clients_get prov api_key with
              | Except.error msg => Except.error (sm2, effsA, msg)
              | Except.ok _ =>
                match fireTransition sm2 ProcessingEvent.TRANSFORM_STOP with
                | Except.error err => Except.error (sm2, effsA, err.message)
                | Except.ok (sm3, effs3) =>
                    Except.ok (sm3, effsA ++ effs3,
                      mkTranscriptionTask env audio_path language prov model2
                        iface.store_transcripts)

/-- `VoiceTypingInterface.StopRecording`: guard on `is_recording`; run the
`try` body; the `except` arm emits `ErrorOccurred("internal", ...)` and
returns `"stop_failed"`; the `finally` block always calls
`self._recording.cleanup()` and clears `_recording`.  (If `_recording`
were `None` while the machine is `RECORDING`, both `try` and `finally`
would raise `AttributeError`; that path is unreachable in the modeled
scenarios and marked with a distinct status.) -/
def StopRecording (env : Env) (iface : VoiceTypingInterface)
    (language provider model api_key : String) :
    VoiceTypingInterface × String × List Effect :=
  if !iface.sm.is_recording then (iface, "not_recording", [])
  else
    match iface.recording with
    | none => (iface, "attribute_error", [])
    | some hnd =>
      match stop_recording_try env iface hnd language provider model api_key with
      | Except.ok (sm3, effs, task) =>
          ({ iface with
             sm := sm3,
             recording := none,
             queue := iface.queue ++ [task] },
            "recording_stopped", effs ++ [Effect.cleanup_called hnd])
      | Except.error (smE, effs, msg) =>
          ({ iface with sm := smE, recording := none },
            "stop_failed",
            effs ++ [Effect.error_occurred "internal"
                       ("Failed to stop recording: " ++ msg),
                     Effect.cleanup_called hnd])

/-- Python truthiness of the `transcription` slot: `None` and the empty
string are falsy. -/
def pyTruthy : Option String → Bool
  | none => false
  | some s => !(s == "")

/-- `pathlib.Path.parent` for slash-separated paths (all paths the
orchestrator builds contain a slash): everything before the last slash. -/
def parentDir (p : String) : String :=
  String.mk ((((p.data.reverse).dropWhile (fun c => !(c == '/'))).drop 1).reverse)

/-- The body of the `async for` in `_processing_pipeline`, for one yielded
task, over a file system modeled as the list of existing files: if the
transcription is truthy AND `store_transcripts` is set, write
`<audio dir>/<md5 of text>.txt` and call the keyboard client's `emit`;
otherwise report `ErrorOccurred("transcription", ...)`; afterwards, if not
persisting and the audio file exists, unlink it and attempt to remove its
directory (a non-empty-directory failure is caught and only logged). -/
def dispatch_step (env : Env) (fs : List String) (transcription : Option String)
    (store_transcripts : Bool) (audio_path : String) : List Effect × List String :=
  let dir := parentDir audio_path
  let branch :=
    if pyTruthy transcription && store_transcripts then
      let text := transcription.getD ""
      let tpath := dir ++ "/" ++ env.md5hex text ++ ".txt"
      ([Effect.write_file tpath text, Effect.keyboard_emit text], tpath :: fs)
    else
      ([Effect.error_occurred "transcription" "Failed to transcribe audio"], fs)
  if !store_transcripts && branch.2.contains audio_path then
    (branch.1 ++ [Effect.unlink_file audio_path, Effect.rmdir_called dir],
      branch.2.filter (fun q => !(q == audio_path)))
  else branch

/-- Dispatch every yielded task in order. -/
def dispatch_all (env : Env) (fs : List String) :
    List (TranscriptionTask PipeState TransitionError) → List Effect × List String
  | [] => ([], fs)
  | t :: rest =>
      let head := dispatch_step env fs t.transcription t.store_transcripts t.audio_path
      let tail := dispatch_all env head.2 rest
      (head.1 ++ tail.1, tail.2)

/-- Queue-level error emissions surface as `ErrorOccurred` DBus signals
through the `set_error_handler(self._emit_error)` hook. -/
def qeventEffects : List QEvent → List Effect
  | [] => []
  | QEvent.error_emitted cat msg :: rest =>
      Effect.error_occurred cat msg :: qeventEffects rest
  | _ :: rest => qeventEffects rest

/-- `_processing_pipeline`: consume the queue via `process_queue` and run
the dispatch step on each yielded task.  (In the source the dispatch of
task n interleaves between queue iterations; the claims inspect per-task
effects and totals, which agree.) -/
def processing_pipeline (env : Env) (p : PipeState) (fs : List String)
    (tasks : List (TranscriptionTask PipeState TransitionError)) :
    PipeState × List QEvent × List Effect × List String :=
  let run := process_queue tasks p
  let dsp := dispatch_all env fs run.yielded
  (run.final, run.events, dsp.1, dsp.2)

/-- Count of `RecordingStateChanged` emissions in an effect list. -/
def countRecordingStateChanged (effs : List Effect) : Nat :=
  (effs.filter (fun e => e == Effect.recording_state_changed)).length

/-- Is this effect a transcript-file write? -/
def isWriteFile : Effect → Bool
  | Effect.write_file _ _ => true
  | _ => false

/-- Stub environment of the §8 round-trip scenario: handle creation
succeeds, the fingerprint is a fixed hash, `save` appends the `.mp3`
suffix, the transcription client returns `"hello world"`, and the clock is
fixed. -/
def env0 : Env :=
  { create_recording := fun _ => Except.ok 1,
    recording_stop := fun _ => Except.ok (),
    fingerprint := fun _ => "audiohash",
    save := fun _ p => Except.ok (p ++ ".mp3"),
    client_behavior := fun _ _ _ _ => Except.ok "hello world",
    md5hex := fun _ => "texthash",
    now_str := "2026-10-12_10-00-00" }

/-- The §8 round-trip call sequence: `StartRecording("mic", "/tmp", true)`,
then `StopRecording("en", provider, model, "key")`, then the processing
pipeline over the enqueued tasks (the file system initially holds the
audio files `save` produced).  Returns both status strings, the final
machine state, and every effect in order. -/
def round_trip (provider model : String) :
    String × String × ProcessingState × List Effect :=
  let r1 := StartRecording env0 initialInterface "mic" "/tmp" true
  let r2 := StopRecording env0 r1.1 "en" provider model "key"
  let i2 := r2.1
  let fs0 := i2.queue.map (fun t => t.audio_path)
  let pr := processing_pipeline env0 { sm := i2.sm, signals := [] } fs0 i2.queue
  (r1.2.1, r2.2.1, pr.1.sm.state,
    r1.2.2 ++ r2.2.2 ++ pr.1.signals ++ qeventEffects pr.2.1 ++ pr.2.2.1)

/-! ## Claims about the orchestrator -/

/-- C3 (divergence, at the failing input): for a yielded task whose
transcription text is present (`"hello"`) and whose persist flag is false,
with the audio artifact on disk, the dispatch step writes no transcript
file — but it also never calls the keyboard client's `emit`: it reports a
transcription failure instead, and then deletes the audio artifact and
attempts to remove its directory.  The spec requires `emit(text)` to be
called here; the `if transcription and store_transcripts` condition routes
a successful, non-persisted transcription into the failure arm. -/
theorem dispatch_skips_emit_without_persist :
    (dispatch_step env0 ["/tmp/d/a.mp3"] (some "hello") false "/tmp/d/a.mp3").1 =
      [Effect.error_occurred "transcription" "Failed to transcribe audio",
       Effect.unlink_file "/tmp/d/a.mp3", Effect.rmdir_called "/tmp/d"] ∧
    (∀ e ∈ (dispatch_step env0 ["/tmp/d/a.mp3"] (some "hello") false
        "/tmp/d/a.mp3").1, e ≠ Effect.keyboard_emit "hello") ∧
    (dispatch_step env0 ["/tmp/d/a.mp3"] (some "hello") false "/tmp/d/a.mp3").2 =
      [] := by
  decide

/-- Counterexample to C4 as stated: running the round-trip scenario with
the literal provider `"providerA"` (not a member of the closed
`InferenceProvider` enum) makes `StopRecording` raise inside its `try`
(`ValueError` from the enum lookup) after `TRANSFORM_START`: the call
returns `"stop_failed"`, the final state is `TRANSFORMING` — not `IDLE` —
and no transcript file is ever written.  (`RecordingStateChanged` does fire
exactly 3 times here, but the claim's conjunction fails.) -/
theorem round_trip_as_specified_fails :
    (round_trip "providerA" "modelX").2.1 = "stop_failed" ∧
    (round_trip "providerA" "modelX").2.2.1 = ProcessingState.TRANSFORMING ∧
    (round_trip "providerA" "modelX").2.2.1 ≠ ProcessingState.IDLE ∧
    ((round_trip "providerA" "modelX").2.2.2.filter isWriteFile) = [] ∧
    countRecordingStateChanged (round_trip "providerA" "modelX").2.2.2 = 3 := by
  decide

/-- C4 as amended: with a registered provider and model
(`"openai"`, `"whisper-1"`) and the stub client returning `"hello world"`,
the round-trip completes: both calls succeed, the pipeline ends with the
state machine in `IDLE`, a transcript file containing `"hello world"` is
written under the audio file's directory — and `RecordingStateChanged`
fires exactly 6 times (each of the six state transitions notifies the one
registered listener), not 3. -/
theorem round_trip_with_valid_provider :
    (round_trip "openai" "whisper-1").1 = "recording_started" ∧
    (round_trip "openai" "whisper-1").2.1 = "recording_stopped" ∧
    (round_trip "openai" "whisper-1").2.2.1 = ProcessingState.IDLE ∧
    Effect.write_file "/tmp/2026-10-12_10-00-00/texthash.txt" "hello world" ∈
      (round_trip "openai" "whisper-1").2.2.2 ∧
    parentDir "/tmp/2026-10-12_10-00-00/texthash.txt" =
      parentDir "/tmp/2026-10-12_10-00-00/audiohash.mp3" ∧
    countRecordingStateChanged (round_trip "openai" "whisper-1").2.2.2 = 6 := by
  decide

/-- C6: starting from `RECORDING` with a live handle, when the handle stop
succeeds but the save step fails (after `TRANSFORM_START` has fired), the
`finally` block still runs `cleanup()`, the call returns `"stop_failed"`,
and the machine is left in `TRANSFORMING` — `TRANSFORM_STOP` is never
fired. -/
theorem stop_recording_save_failure (env : Env) (iface : VoiceTypingInterface)
    (hnd : Nat) (language provider model api_key : String)
    (hrec : iface.sm.state = ProcessingState.RECORDING)
    (hhnd : iface.recording = some hnd)
    (hstop : env.recording_stop hnd = Except.ok ())
    (hsave : ∀ p, ∃ msg, env.save hnd p = Except.error msg) :
    (StopRecording env iface language provider model api_key).2.1 =
      "stop_failed" ∧
    (StopRecording env iface language provider model api_key).1.sm.state =
      ProcessingState.TRANSFORMING ∧
    Effect.cleanup_called hnd ∈
      (StopRecording env iface language provider model api_key).2.2 := by
  obtain ⟨sm, rec, tp, st, q⟩ := iface
  obtain ⟨s, ls⟩ := sm
  dsimp only at hrec hhnd
  subst hrec hhnd
  obtain ⟨msg, hmsg⟩ := hsave (tp ++ "/" ++ env.now_str ++ "/" ++ env.fingerprint hnd)
  simp [StopRecording, stop_recording_try, fireTransition,
    ProcessingStateMachine.transition, ProcessingStateMachine.is_recording,
    ProcessingStateMachine.notify_listeners, hstop, hmsg]

/-- Environment whose `save` always fails, for the C6 witness. -/
def envSaveFail : Env :=
  { env0 with save := fun _ _ => Except.error "disk full" }

/-- An interface mid-recording (handle 1 open), for the C6 and C7
witnesses. -/
def recordingInterface : VoiceTypingInterface :=
  { initialInterface with
    sm := { state := ProcessingState.RECORDING, listeners := [0] },
    recording := some 1,
    transcript_path := "/tmp",
    store_transcripts := true }

/-- Witness for C6 at a concrete failing-save environment. -/
theorem stop_recording_save_failure_witness :
    (StopRecording envSaveFail recordingInterface "en" "openai" "whisper-1"
        "key").2.1 = "stop_failed" ∧
    (StopRecording envSaveFail recordingInterface "en" "openai" "whisper-1"
        "key").1.sm.state = ProcessingState.TRANSFORMING ∧
    Effect.cleanup_called 1 ∈
      (StopRecording envSaveFail recordingInterface "en" "openai" "whisper-1"
        "key").2.2 :=
  stop_recording_save_failure envSaveFail recordingInterface 1 "en" "openai"
    "whisper-1" "key" rfl rfl rfl (fun _ => ⟨"disk full", rfl⟩)

/-- C7: from `IDLE`, with AudioCapture yielding a handle, a first
`StartRecording` returns `"recording_started"` and moves the machine to
`RECORDING`; a second `StartRecording` with no intervening stop returns
`"already_recording"`, performs no external call at all (in particular it
requests no new handle), and leaves the interface exactly as it was — so
at most one `RecordingHandle` is ever open. -/
theorem start_recording_twice (env : Env) (iface : VoiceTypingInterface)
    (dev1 path1 dev2 path2 : String) (persist1 persist2 : Bool) (hnd : Nat)
    (hidle : iface.sm.state = ProcessingState.IDLE)
    (hcr : env.create_recording dev1 = Except.ok hnd) :
    (StartRecording env iface dev1 path1 persist1).2.1 = "recording_started" ∧
    (StartRecording env iface dev1 path1 persist1).1.sm.state =
      ProcessingState.RECORDING ∧
    (StartRecording env (StartRecording env iface dev1 path1 persist1).1
        dev2 path2 persist2).2.1 = "already_recording" ∧
    (StartRecording env (StartRecording env iface dev1 path1 persist1).1
        dev2 path2 persist2).1 =
      (StartRecording env iface dev1 path1 persist1).1 ∧
    (StartRecording env (StartRecording env iface dev1 path1 persist1).1
        dev2 path2 persist2).2.2 = [] := by
  obtain ⟨sm, rec, tp, st, q⟩ := iface
  obtain ⟨s, ls⟩ := sm
  dsimp only at hidle
  subst hidle
  simp [StartRecording, fireTransition, ProcessingStateMachine.transition,
    ProcessingStateMachine.is_recording, ProcessingStateMachine.notify_listeners,
    hcr]

/-- Witness for C7 at the stub environment. -/
theorem start_recording_twice_witness :
    (StartRecording env0 initialInterface "mic" "/tmp" true).2.1 =
      "recording_started" ∧
    (StartRecording env0 initialInterface "mic" "/tmp" true).1.sm.state =
      ProcessingState.RECORDING ∧
    (StartRecording env0 (StartRecording env0 initialInterface "mic" "/tmp"
        true).1 "mic2" "/srv" false).2.1 = "already_recording" ∧
    (StartRecording env0 (StartRecording env0 initialInterface "mic" "/tmp"
        true).1 "mic2" "/srv" false).1 =
      (StartRecording env0 initialInterface "mic" "/tmp" true).1 ∧
    (StartRecording env0 (StartRecording env0 initialInterface "mic" "/tmp"
        true).1 "mic2" "/srv" false).2.2 = [] :=
  start_recording_twice env0 initialInterface "mic" "/tmp" "mic2" "/srv"
    true false 1 rfl rfl

/-- C9: while the machine is `TRANSFORMING` or `TRANSCRIBING` (so
`is_recording` is false), `StartRecording`'s guard passes and a fresh
handle is requested and stored in `_recording`; the `START_RECORDING`
transition then raises `TransitionError`, which the `except` arm turns
into `"recording_failed"` — the state is unchanged and `cleanup()` is
never invoked on the freshly created handle (the only external call is the
handle request). -/
theorem start_recording_while_processing (env : Env)
    (iface : VoiceTypingInterface) (dev path : String) (persist : Bool)
    (hnd : Nat)
    (hbusy : iface.sm.state = ProcessingState.TRANSFORMING ∨
      iface.sm.state = ProcessingState.TRANSCRIBING)
    (hcr : env.create_recording dev = Except.ok hnd) :
    (StartRecording env iface dev path persist).2.1 = "recording_failed" ∧
    (StartRecording env iface dev path persist).1.sm = iface.sm ∧
    (StartRecording env iface dev path persist).1.recording = some hnd ∧
    (StartRecording env iface dev path persist).2.2 =
      [Effect.create_recording_called dev] := by
  obtain ⟨sm, rec, tp, st, q⟩ := iface
  obtain ⟨s, ls⟩ := sm
  dsimp only at hbusy
  rcases hbusy with hb | hb <;> subst hb <;>
    simp [StartRecording, fireTransition, ProcessingStateMachine.transition,
      ProcessingStateMachine.is_recording, hcr]

/-- An interface whose machine sits in `TRANSFORMING`, for the C9
witness. -/
def transformingInterface : VoiceTypingInterface :=
  { initialInterface with
    sm := { state := ProcessingState.TRANSFORMING, listeners := [0] } }

/-- Witness for C9 at the stub environment, machine in `TRANSFORMING`. -/
theorem start_recording_while_processing_witness :
    (StartRecording env0 transformingInterface "mic" "/tmp" true).2.1 =
      "recording_failed" ∧
    (StartRecording env0 transformingInterface "mic" "/tmp" true).1.sm =
      transformingInterface.sm ∧
    (StartRecording env0 transformingInterface "mic" "/tmp" true).1.recording =
      some 1 ∧
    (StartRecording env0 transformingInterface "mic" "/tmp" true).2.2 =
      [Effect.create_recording_called "mic"] :=
  start_recording_while_processing env0 transformingInterface "mic" "/tmp"
    true 1 (Or.inl rfl) rfl

end VoiceTyping
